import Mathlib

/-!
Verification of the billing data model and invoice-document rendering logic
of the Blog-App back-office repository (`main/models.py`, `main/admin.py`).

Monetary amounts are Django `DecimalField(max_digits=10, decimal_places=2)`
values; the database layer always hands them back quantized to exactly two
decimal places, so they are embedded as integer numbers of cents (`Int`).
Dates are embedded as year/month/day triples with the lexicographic order
Python's `datetime.date` uses.
-/

namespace BlogApp

/-- A calendar date (Python `datetime.date`): year, month, day. -/
structure Date where
  year : Nat
  month : Nat
  day : Nat
deriving DecidableEq, Repr

/-- Python `date.__lt__`: lexicographic comparison on (year, month, day). -/
def Date.lt (a b : Date) : Bool :=
  if a.year ≠ b.year then decide (a.year < b.year)
  else if a.month ≠ b.month then decide (a.month < b.month)
  else decide (a.day < b.day)

/-- `main.models.Client`. -/
structure Client where
  id : Nat
  name : String
  email : String
  phone : Option String
  company : Option String
  address : Option String
  notes : Option String
deriving DecidableEq, Repr

/-- `main.models.Project`; `client` is the foreign key `Project.client_id`. -/
structure Project where
  id : Nat
  clientId : Nat
  title : String
  description : Option String
  startDate : Date
  dueDate : Option Date
  status : String
  budget : Option Int
deriving DecidableEq, Repr

/-- `main.models.Task`; `project` is the foreign key `Task.project_id`. -/
structure Task where
  id : Nat
  projectId : Nat
  title : String
  description : Option String
  status : String
  dueDate : Option Date
deriving DecidableEq, Repr

/-- `main.models.Invoice`; `amount` is in cents. -/
structure Invoice where
  id : Nat
  projectId : Nat
  issueDate : Date
  dueDate : Option Date
  amount : Int
  status : String
  notes : Option String
deriving DecidableEq, Repr

/-- `main.models.Payment`; `amount` is in cents, `date` the date part of the
payment's datetime. -/
structure Payment where
  id : Nat
  invoiceId : Nat
  date : Date
  amount : Int
  method : String
  reference : Option String
deriving DecidableEq, Repr

/-- `main.models.Expense`; `projectId` is nullable (`null=True, blank=True`). -/
structure Expense where
  id : Nat
  projectId : Option Nat
  title : String
  category : String
  amount : Int
  date : Date
  description : Option String
deriving DecidableEq, Repr

/-- `main.models.Note`. -/
structure Note where
  id : Nat
  projectId : Nat
  content : String
deriving DecidableEq, Repr

/-- `main.models.ProjectFile` (the Attachment entity). -/
structure ProjectFile where
  id : Nat
  projectId : Nat
  description : Option String
deriving DecidableEq, Repr

/-- The record store: one table per model of `main/models.py`. -/
structure DB where
  clients : List Client
  projects : List Project
  tasks : List Task
  invoices : List Invoice
  payments : List Payment
  expenses : List Expense
  notes : List Note
  files : List ProjectFile
deriving DecidableEq, Repr

/-! ### Monetary formatting

`total_invoiced` renders with Python format `{:,.2f}` (thousands separators);
the PDF renderer uses `f"${invoice.amount}"`, i.e. `str` of a two-decimal-place
`Decimal`, which prints the plain digits with exactly two fractional digits. -/

/-- Two-digit zero-padded rendering of `n < 100` (the cents part). -/
def pad2 (n : Nat) : String :=
  if n < 10 then "0" ++ toString n else toString n

/-- Python `str` of a `Decimal` quantized to two decimal places, for a value
of `cents` cents: sign, integer digits, point, two fractional digits. -/
def decStr (cents : Int) : String :=
  (if cents < 0 then "-" else "")
    ++ toString (cents.natAbs / 100) ++ "." ++ pad2 (cents.natAbs % 100)

/-- Insert a thousands separator after every third digit of a reversed digit
list (least significant digit first), as Python's `,` format option does. -/
def insertCommasRev : List Char → Nat → List Char
  | [], _ => []
  | c :: cs, i =>
    c :: (if (i + 1) % 3 = 0 ∧ cs ≠ [] then
            ',' :: insertCommasRev cs (i + 1)
          else insertCommasRev cs (i + 1))

/-- Group the digits of a digit string with commas, as Python `{:,}` does. -/
def commaGroup (s : String) : String :=
  String.mk (insertCommasRev s.data.reverse 0).reverse

/-- Python `format(x, ",.2f")` for a two-decimal-place value of `cents`
cents: sign, comma-grouped integer digits, point, two fractional digits. -/
def commaFmt (cents : Int) : String :=
  (if cents < 0 then "-" else "")
    ++ commaGroup (toString (cents.natAbs / 100)) ++ "." ++ pad2 (cents.natAbs % 100)

/-! ### Billing aggregator (`ClientAdmin` in `main/admin.py`) -/

/-- The queryset `Invoice.objects.filter(project__client=obj)`: invoices whose
project row belongs to the given client. -/
def clientInvoices (db : DB) (c : Client) : List Invoice :=
  db.invoices.filter (fun inv =>
    db.projects.any (fun p => p.id == inv.projectId && p.clientId == c.id))

/-- Sum of the `amount` column over a list of invoices. -/
def sumAmounts (l : List Invoice) : Int :=
  l.foldl (fun acc inv => acc + inv.amount) 0

/-- `.aggregate(total=Sum('amount'))['total']`: SQL `SUM` is `NULL` (`None`)
over an empty set of rows, the sum otherwise. -/
def aggregateSumAmount (l : List Invoice) : Option Int :=
  if l.isEmpty then none else some (sumAmounts l)

/-- `ClientAdmin.total_invoiced` (`main/admin.py` lines 91-95). -/
def total_invoiced (db : DB) (c : Client) : String :=
  match aggregateSumAmount (clientInvoices db c) with
  | some total => "$" ++ commaFmt total
  | none => "$0.00"

/-- Stated from the specification, for comparison with `total_invoiced`: the
exact fixed-point sum of `amount` over every invoice whose project belongs to
the client. -/
def specClientTotal (db : DB) (c : Client) : Int :=
  sumAmounts (db.invoices.filter (fun inv =>
    db.projects.any (fun p => p.id == inv.projectId && p.clientId == c.id)))

/-- `ClientAdmin.project_count` (`main/admin.py` lines 87-89). -/
def project_count (db : DB) (c : Client) : Nat :=
  (db.projects.filter (fun p => p.clientId == c.id)).length

/-! ### Task overdue display (`TaskAdmin.is_overdue`, `main/admin.py` 124-129) -/

/-- `TaskAdmin.is_overdue`: `obj.status != 'Done' and obj.due_date and
obj.due_date < timezone.localdate()`. Python's `and` first checks the
truthiness of `obj.due_date` (`None` is falsy, every date is truthy), so a
null due date short-circuits to `False`. `today` is `timezone.localdate()`. -/
def is_overdue (t : Task) (today : Date) : Bool :=
  if (t.status != "Done")
      && (match t.dueDate with
          | some d => Date.lt d today
          | none => false) then
    true
  else
    false

/-! ### Foreign-key resolution and the invoice document renderer
(`InvoiceAdmin.export_as_pdf`, `main/admin.py` 142-240) -/

/-- Resolve `invoice.project`: the project row carrying the foreign key id. -/
def findProject (db : DB) (pid : Nat) : Option Project :=
  db.projects.find? (fun p => p.id == pid)

/-- Resolve `project.client`: the client row carrying the foreign key id. -/
def findClient (db : DB) (cid : Nat) : Option Client :=
  db.clients.find? (fun c => c.id == cid)

/-- Python `x or fallback` on a nullable text field: `None` and the empty
string are falsy, any other string is returned unchanged. -/
def pyOr (o : Option String) (fallback : String) : String :=
  match o with
  | none => fallback
  | some s => if s = "" then fallback else s

/-- Python `str` of an optional date inside an f-string: `None` prints as
the text `None`, a date as zero-padded `YYYY-MM-DD`. -/
def pad4 (n : Nat) : String :=
  if n < 10 then "000" ++ toString n
  else if n < 100 then "00" ++ toString n
  else if n < 1000 then "0" ++ toString n
  else toString n

/-- Python `str` of a `datetime.date`: `YYYY-MM-DD`. -/
def dateStr (d : Date) : String :=
  pad4 d.year ++ "-" ++ pad2 d.month ++ "-" ++ pad2 d.day

/-- An optional date rendered inside an f-string. -/
def optDateStr (o : Option Date) : String :=
  match o with
  | none => "None"
  | some d => dateStr d

/-- `invoice.project.title.replace(" ", "_")`: every space becomes an
underscore (single-character pattern, so a character map). -/
def underscoreSpaces (s : String) : String :=
  String.mk (s.data.map (fun ch => if ch = ' ' then '_' else ch))

/-- The document `export_as_pdf` assembles: the response filename and the
text content of every `Paragraph`/table cell built from record fields
(`main/admin.py` 150-235). -/
structure PdfDoc where
  filename : String
  contentType : String
  companyBlock : String
  invoiceBlock : String
  billedToHeading : String
  projectHeading : String
  billedToParagraph : String
  projectParagraph : String
  itemHeader : List String
  itemDescription : String
  itemQty : String
  itemUnitPrice : String
  itemAmount : String
  totalLabel : String
  totalAmount : String
  notesParagraph : String
  statusParagraph : String
deriving DecidableEq, Repr

/-- The document-assembly part of `InvoiceAdmin.export_as_pdf`, for one
invoice with its project and client resolved (`main/admin.py` 150-235). -/
def renderInvoice (invoice : Invoice) (project : Project) (client : Client) :
    PdfDoc where
  filename :=
    "invoice_" ++ toString invoice.id ++ "_" ++ underscoreSpaces project.title ++ ".pdf"
  contentType := "application/pdf"
  companyBlock :=
    "<b>Your Company Name</b><br/>123 Business Lane, City<br/>contact@yourcompany.com"
  invoiceBlock :=
    "<b>INVOICE</b><br/># " ++ toString invoice.id
      ++ "<br/>Issue Date: " ++ dateStr invoice.issueDate
      ++ "<br/>Due Date: " ++ optDateStr invoice.dueDate
  billedToHeading := "<b>BILLED TO:</b>"
  projectHeading := "<b>PROJECT DETAILS:</b>"
  billedToParagraph :=
    "<b>" ++ client.name ++ "</b><br/>" ++ pyOr client.company "Individual"
      ++ "<br/>" ++ client.email
  projectParagraph :=
    "<b>Project:</b> " ++ project.title ++ "<br/><b>Status:</b> " ++ invoice.status
  itemHeader := ["DESCRIPTION", "QTY", "UNIT PRICE", "AMOUNT"]
  itemDescription := pyOr project.description "Project service fee."
  itemQty := "1"
  itemUnitPrice := "$" ++ decStr invoice.amount
  itemAmount := "$" ++ decStr invoice.amount
  totalLabel := "TOTAL:"
  totalAmount := "$" ++ decStr invoice.amount
  notesParagraph :=
    "<b>Notes:</b> " ++ pyOr invoice.notes "Thank you for your business!"
  statusParagraph :=
    "**Current Status:** <font color=\x27red\x27><b>" ++ invoice.status ++ "</b></font>"

/-- Outcome of one invocation of the export admin action: a user-visible
selection error (`message_user`, no response body), a raised
missing-related-row exception, or a complete PDF response. -/
inductive ExportResult where
  | selectionError (msg : String)
  | missingRef
  | document (d : PdfDoc)
deriving DecidableEq, Repr

/-- `InvoiceAdmin.export_as_pdf(request, queryset)` (`main/admin.py`
142-240), in state-passing form: the record store is threaded through
explicitly and returned alongside the outcome. `queryset.count() != 1`
is rejected with the error message; otherwise the queryset is the single
selected invoice (`queryset.first()`), whose project and client rows are
resolved and rendered. A dangling foreign key would raise in Django and
is returned as `missingRef`. -/
def export_as_pdf (db : DB) (queryset : List Invoice) : DB × ExportResult :=
  match queryset with
  | [invoice] =>
    match findProject db invoice.projectId with
    | none => (db, ExportResult.missingRef)
    | some project =>
      match findClient db project.clientId with
      | none => (db, ExportResult.missingRef)
      | some client => (db, ExportResult.document (renderInvoice invoice project client))
  | _ => (db, ExportResult.selectionError "Please select exactly one invoice to print.")

/-- Referential integrity of the record store, which Django's foreign keys
enforce: every invoice's project row exists, and every project's client row
exists. -/
def WellFormedRefs (db : DB) : Prop :=
  (∀ inv ∈ db.invoices, ∃ p ∈ db.projects, p.id = inv.projectId)
    ∧ (∀ p ∈ db.projects, ∃ c ∈ db.clients, c.id = p.clientId)

instance (db : DB) : Decidable (WellFormedRefs db) := by
  unfold WellFormedRefs
  infer_instance

/-! ### Cascade deletion (`on_delete` declarations in `main/models.py`)

`Project.client` is `CASCADE` (line 32); `Task.project`, `Invoice.project`,
`Note.project`, `ProjectFile.project` and `Payment.invoice` are `CASCADE`
(lines 55, 77, 130, 142, 92); `Expense.project` is `SET_NULL` (line 115). -/

/-- The ids of the projects owned by the client being deleted. -/
def deadProjectIds (db : DB) (cid : Nat) : List Nat :=
  (db.projects.filter (fun p => p.clientId == cid)).map (fun p => p.id)

/-- The ids of the invoices of those projects. -/
def deadInvoiceIds (db : DB) (cid : Nat) : List Nat :=
  (db.invoices.filter (fun i => (deadProjectIds db cid).contains i.projectId)).map
    (fun i => i.id)

/-- Deleting the client with id `cid`, embedding the `on_delete` semantics
declared in `main/models.py`: cascade through projects to tasks, invoices,
notes, files and payments; set the project reference of surviving expenses
to null. -/
def deleteClient (db : DB) (cid : Nat) : DB where
  clients := db.clients.filter (fun c => c.id != cid)
  projects := db.projects.filter (fun p => p.clientId != cid)
  tasks := db.tasks.filter (fun t => !(deadProjectIds db cid).contains t.projectId)
  invoices := db.invoices.filter (fun i => !(deadProjectIds db cid).contains i.projectId)
  payments := db.payments.filter (fun p => !(deadInvoiceIds db cid).contains p.invoiceId)
  expenses := db.expenses.map (fun e =>
    match e.projectId with
    | some pid =>
      if (deadProjectIds db cid).contains pid then { e with projectId := none } else e
    | none => e)
  notes := db.notes.filter (fun n => !(deadProjectIds db cid).contains n.projectId)
  files := db.files.filter (fun f => !(deadProjectIds db cid).contains f.projectId)

/-! ### Monthly revenue (dashboard feed) -/

/-- The payments dated in calendar month `m` (1-12). -/
def paymentsInMonth (db : DB) (m : Nat) : List Payment :=
  db.payments.filter (fun p => p.date.month == m)

/-- Sum of payment amounts. -/
def sumPayments (l : List Payment) : Int :=
  l.foldl (fun acc p => acc + p.amount) 0

/-- The calendar months, in ascending order, that have at least one payment. -/
def monthsWithPayments (db : DB) : List Nat :=
  ((List.range 12).map (fun i => i + 1)).filter
    (fun m => !(paymentsInMonth db m).isEmpty)

/-- Modelled from the spec: the dashboard code computing `monthly_revenue()`
is not under `src/`; spec §4.2 describes it as grouping all Payments by
calendar month of `date`, summing `amount` per month, ordered by month
number ascending, with zero-payment months omitted from the result. Each
entry is a (month, total) pair. -/
def monthly_revenue (db : DB) : List (Nat × Int) :=
  (monthsWithPayments db).map (fun m => (m, sumPayments (paymentsInMonth db m)))

/-! ### Concrete fixture records, used to witness the theorems below -/

def exClient : Client :=
  ⟨1, "Ada", "ada@example.com", none, none, none, none⟩

def exProj1 : Project :=
  ⟨10, 1, "Site Build", none, ⟨2024, 1, 1⟩, none, "Ongoing", none⟩

def exProj2 : Project :=
  ⟨11, 1, "App", some "Native app work", ⟨2024, 1, 1⟩, none, "Pending", none⟩

def exInv1 : Invoice :=
  ⟨100, 10, ⟨2024, 2, 1⟩, none, 100000, "Unpaid", none⟩

def exInv2 : Invoice :=
  ⟨101, 11, ⟨2024, 2, 1⟩, none, 25050, "Paid", some "wire ref 7"⟩

def exTaskNoDue : Task :=
  ⟨20, 10, "Write copy", none, "Todo", none⟩

def exTaskDue : Task :=
  ⟨21, 10, "Ship build", none, "In Progress", some ⟨2024, 1, 15⟩⟩

def exPayment : Payment :=
  ⟨30, 100, ⟨2024, 3, 5⟩, 50000, "Bank Transfer", none⟩

def exExpense : Expense :=
  ⟨40, some 10, "Fonts", "Software", 1500, ⟨2024, 2, 2⟩, none⟩

def exNote : Note :=
  ⟨50, 10, "Kickoff call done"⟩

def exFile : ProjectFile :=
  ⟨60, 10, some "contract"⟩

def exDb : DB :=
  ⟨[exClient], [exProj1, exProj2], [exTaskNoDue, exTaskDue], [exInv1, exInv2],
    [exPayment], [exExpense], [exNote], [exFile]⟩

def exEmptyDb : DB :=
  ⟨[exClient], [], [], [], [], [], [], []⟩

end BlogApp

namespace BlogApp

/-- C1: for every Client, `total_invoiced` returns the exact fixed-point sum
of `amount` over all Invoices whose Project belongs to that Client, rendered
as currency, and returns the string `$0.00` (never a null value) when the
Client has no invoices. -/
theorem claim_C1 (db : DB) (c : Client) :
    total_invoiced db c = "$" ++ commaFmt (specClientTotal db c)
      ∧ (clientInvoices db c = [] → total_invoiced db c = "$0.00") := by
  have hs : specClientTotal db c = sumAmounts (clientInvoices db c) := rfl
  have ht : total_invoiced db c =
      match aggregateSumAmount (clientInvoices db c) with
      | some total => "$" ++ commaFmt total
      | none => "$0.00" := rfl
  rcases h : clientInvoices db c with _ | ⟨a, l⟩
  · rw [ht, hs, h]
    exact ⟨rfl, fun _ => rfl⟩
  · rw [ht, hs, h]
    exact ⟨rfl, fun hx => absurd hx (List.cons_ne_nil a l)⟩

/-- Witness for C1 on a store with no invoices: the zero-formatted string is
returned. -/
theorem claim_C1_witness : total_invoiced exEmptyDb exClient = "$0.00" :=
  (claim_C1 exEmptyDb exClient).2 rfl

/-- C7: the displayed overdue indicator is true iff the Task's status is not
`Done` and its due date is present and strictly earlier than the current
date. -/
theorem claim_C7 (t : Task) (today : Date) :
    is_overdue t today = true ↔
      (t.status ≠ "Done" ∧ ∃ d, t.dueDate = some d ∧ Date.lt d today = true) := by
  unfold is_overdue
  rcases hd : t.dueDate with _ | d <;>
    simp [hd, Bool.and_eq_true, bne_iff_ne]

/-- C10: a Task with no due date is never displayed as overdue, whatever its
status. -/
theorem claim_C10 (t : Task) (today : Date) (h : t.dueDate = none) :
    is_overdue t today = false := by
  unfold is_overdue
  rw [h]
  simp

/-- Witness for C10 at a concrete no-due-date task. -/
theorem claim_C10_witness : is_overdue exTaskNoDue ⟨2024, 6, 1⟩ = false :=
  claim_C10 exTaskNoDue ⟨2024, 6, 1⟩ rfl

/-- Inversion for the export action: a produced document comes from a
singleton selection whose project and client rows resolved, and is the
rendering of those three records. -/
theorem export_document_inv (db : DB) (qs : List Invoice) (d : PdfDoc)
    (h : (export_as_pdf db qs).2 = ExportResult.document d) :
    ∃ inv project client, qs = [inv]
      ∧ findProject db inv.projectId = some project
      ∧ findClient db project.clientId = some client
      ∧ d = renderInvoice inv project client := by
  rcases qs with _ | ⟨inv, _ | ⟨inv2, rest⟩⟩
  · simp [export_as_pdf] at h
  · rcases hp : findProject db inv.projectId with _ | project
    · simp [export_as_pdf, hp] at h
    · rcases hc : findClient db project.clientId with _ | client
      · simp [export_as_pdf, hp, hc] at h
      · simp only [export_as_pdf, hp, hc] at h
        exact ⟨inv, project, client, rfl, hp, hc,
          (ExportResult.document.injEq _ _).mp h.symm⟩
  · simp [export_as_pdf] at h

/-- C2: selections of size 0 or at least 2 are rejected with the user-visible
error and produce no document; a selection of exactly one invoice from a
referentially intact store produces a document. -/
theorem claim_C2 (db : DB) (qs : List Invoice) :
    (qs.length ≠ 1 →
      (export_as_pdf db qs).2 =
          ExportResult.selectionError "Please select exactly one invoice to print."
        ∧ ∀ d, (export_as_pdf db qs).2 ≠ ExportResult.document d)
    ∧ (qs.length = 1 → WellFormedRefs db → (∀ i ∈ qs, i ∈ db.invoices) →
        ∃ d, (export_as_pdf db qs).2 = ExportResult.document d) := by
  constructor
  · intro hne
    rcases qs with _ | ⟨a, _ | ⟨b, l⟩⟩
    · exact ⟨rfl, fun d hd => by simp [export_as_pdf] at hd⟩
    · exact absurd rfl hne
    · exact ⟨rfl, fun d hd => by simp [export_as_pdf] at hd⟩
  · intro hlen hwf hmem
    rcases qs with _ | ⟨inv, _ | ⟨b, l⟩⟩
    · simp at hlen
    · have hinv : inv ∈ db.invoices := hmem inv (by simp)
      obtain ⟨p, hpmem, hpid⟩ := hwf.1 inv hinv
      have hfind : (findProject db inv.projectId).isSome := by
        rw [findProject, List.find?_isSome]
        exact ⟨p, hpmem, by simp [hpid]⟩
      obtain ⟨project, hproj⟩ := Option.isSome_iff_exists.mp hfind
      have hprojmem : project ∈ db.projects := List.mem_of_find?_eq_some hproj
      obtain ⟨c, hcmem, hcid⟩ := hwf.2 project hprojmem
      have hcfind : (findClient db project.clientId).isSome := by
        rw [findClient, List.find?_isSome]
        exact ⟨c, hcmem, by simp [hcid]⟩
      obtain ⟨client, hclient⟩ := Option.isSome_iff_exists.mp hcfind
      exact ⟨renderInvoice inv project client, by
        simp [export_as_pdf, hproj, hclient]⟩
    · simp at hlen

/-- Witness for C2: the empty selection is rejected, and a singleton
selection from the fixture store yields a document. -/
theorem claim_C2_witness :
    ((export_as_pdf exDb []).2 =
        ExportResult.selectionError "Please select exactly one invoice to print.")
      ∧ ∃ d, (export_as_pdf exDb [exInv1]).2 = ExportResult.document d :=
  ⟨((claim_C2 exDb []).1 (by decide)).1,
   (claim_C2 exDb [exInv1]).2 rfl (by decide) (by decide)⟩

/-- C3: every successfully exported document's filename is `invoice_`, the
invoice id, an underscore, the project title with spaces replaced by
underscores, and `.pdf`. -/
theorem claim_C3 (db : DB) (qs : List Invoice) (d : PdfDoc)
    (h : (export_as_pdf db qs).2 = ExportResult.document d) :
    ∃ inv project, qs = [inv]
      ∧ findProject db inv.projectId = some project
      ∧ d.filename =
          "invoice_" ++ toString inv.id ++ "_"
            ++ underscoreSpaces project.title ++ ".pdf" := by
  obtain ⟨inv, project, client, hqs, hp, hc, hd⟩ := export_document_inv db qs d h
  exact ⟨inv, project, hqs, hp, by rw [hd]; rfl⟩

/-- Witness for C3 on the fixture store: project title `Site Build` gives
filename `invoice_100_Site_Build.pdf`. -/
theorem claim_C3_witness :
    (renderInvoice exInv1 exProj1 exClient).filename = "invoice_100_Site_Build.pdf" := by
  obtain ⟨inv, project, hqs, hp, hf⟩ :=
    claim_C3 exDb [exInv1] (renderInvoice exInv1 exProj1 exClient) rfl
  obtain rfl : exInv1 = inv := by simpa using hqs
  rw [show findProject exDb exInv1.projectId = some exProj1 from rfl] at hp
  obtain rfl : exProj1 = project := by simpa using hp
  rw [hf]
  decide

/-- C4: the rendered document falls back to the literal line-item text
`Project service fee.` when the project has no description, to the literal
footer `Thank you for your business!` when the invoice has no notes, and to
the literal `Individual` in the billed-to block when the client has no
company. -/
theorem claim_C4 (invoice : Invoice) (project : Project) (client : Client) :
    (project.description = none →
      (renderInvoice invoice project client).itemDescription = "Project service fee.")
    ∧ (invoice.notes = none →
      (renderInvoice invoice project client).notesParagraph =
        "<b>Notes:</b> Thank you for your business!")
    ∧ (client.company = none →
      (renderInvoice invoice project client).billedToParagraph =
        "<b>" ++ client.name ++ "</b><br/>Individual<br/>" ++ client.email) := by
  refine ⟨fun h => ?_, fun h => ?_, fun h => ?_⟩
  · show pyOr project.description "Project service fee." = "Project service fee."
    rw [h]
    rfl
  · show "<b>Notes:</b> " ++ pyOr invoice.notes "Thank you for your business!"
        = "<b>Notes:</b> Thank you for your business!"
    rw [h]
    rfl
  · show "<b>" ++ client.name ++ "</b><br/>" ++ pyOr client.company "Individual"
          ++ "<br/>" ++ client.email
        = "<b>" ++ client.name ++ "</b><br/>Individual<br/>" ++ client.email
    rw [h]
    simp only [String.append_assoc]
    rfl

/-- Witness for C4 at concrete records with all three fields absent. -/
theorem claim_C4_witness :
    (renderInvoice exInv1 exProj1 exClient).itemDescription = "Project service fee."
      ∧ (renderInvoice exInv1 exProj1 exClient).notesParagraph =
          "<b>Notes:</b> Thank you for your business!"
      ∧ (renderInvoice exInv1 exProj1 exClient).billedToParagraph =
          "<b>" ++ exClient.name ++ "</b><br/>Individual<br/>" ++ exClient.email :=
  ⟨(claim_C4 exInv1 exProj1 exClient).1 rfl,
   (claim_C4 exInv1 exProj1 exClient).2.1 rfl,
   (claim_C4 exInv1 exProj1 exClient).2.2 rfl⟩

/-- `Nat.digitChar` of a value below ten is a decimal digit character. -/
theorem digitChar_isDigit : ∀ m, m < 10 → (Nat.digitChar m).isDigit = true := by
  decide

/-- `Nat.toDigitsCore` over base ten only prepends decimal digits onto a
digits-only accumulator. -/
theorem toDigitsCore_isDigit :
    ∀ (f n : Nat) (l : List Char), (∀ c ∈ l, c.isDigit = true) →
      ∀ c ∈ Nat.toDigitsCore 10 f n l, c.isDigit = true := by
  intro f
  induction f with
  | zero =>
    intro n l hl c hc
    exact hl c hc
  | succ f ih =>
    intro n l hl c hc
    have hd : (Nat.digitChar (n % 10)).isDigit = true :=
      digitChar_isDigit _ (Nat.mod_lt _ (by norm_num))
    simp only [Nat.toDigitsCore] at hc
    split at hc
    · rcases List.mem_cons.mp hc with rfl | hmem
      · exact hd
      · exact hl c hmem
    · refine ih (n / 10) (Nat.digitChar (n % 10) :: l) ?_ c hc
      intro x hx
      rcases List.mem_cons.mp hx with rfl | hmem
      · exact hd
      · exact hl x hmem

/-- Every character of the decimal representation of a natural number is a
digit. -/
theorem repr_isDigit (n : Nat) : ∀ c ∈ (Nat.repr n).data, c.isDigit = true := by
  intro c hc
  exact toDigitsCore_isDigit (n + 1) n [] (by intro x hx; cases hx) c hc

/-- The cents part always prints as exactly two characters. -/
theorem pad2_length : ∀ n, n < 100 → (pad2 n).length = 2 := by
  decide

/-- The cents part prints as digit characters only. -/
theorem pad2_isDigit : ∀ n, n < 100 → ∀ c ∈ (pad2 n).data, c.isDigit = true := by
  decide

/-- C5: in every rendered document the line-item unit price, line-item
amount and totals-row amount are the same rendering of the Invoice's
`amount` field, with a leading `$` and exactly two decimal places: the
text after the final point is two digit characters, and no point occurs
before it. -/
theorem claim_C5 (invoice : Invoice) (project : Project) (client : Client) :
    ((renderInvoice invoice project client).itemUnitPrice = "$" ++ decStr invoice.amount
      ∧ (renderInvoice invoice project client).itemAmount = "$" ++ decStr invoice.amount
      ∧ (renderInvoice invoice project client).totalAmount = "$" ++ decStr invoice.amount)
    ∧ ∃ intPart fracPart,
        decStr invoice.amount = intPart ++ "." ++ fracPart
        ∧ fracPart.length = 2
        ∧ (∀ c ∈ fracPart.data, c.isDigit = true)
        ∧ ∀ c ∈ intPart.data, c ≠ '.' := by
  have hlt : invoice.amount.natAbs % 100 < 100 := Nat.mod_lt _ (by norm_num)
  refine ⟨⟨rfl, rfl, rfl⟩,
    (if invoice.amount < 0 then "-" else "") ++ toString (invoice.amount.natAbs / 100),
    pad2 (invoice.amount.natAbs % 100), rfl, pad2_length _ hlt, pad2_isDigit _ hlt, ?_⟩
  intro c hc
  rw [String.data_append] at hc
  rcases List.mem_append.mp hc with hs | hr
  · have hc' : c = '-' := by
      revert hs
      split
      · intro hs
        simpa using hs
      · intro hs
        simp at hs
    rw [hc']
    decide
  · have hdig := repr_isDigit (invoice.amount.natAbs / 100) c hr
    intro he
    rw [he] at hdig
    exact absurd hdig (by decide)

/-- C6: `monthly_revenue()` is ordered by ascending month number, every
entry belongs to a month with at least one payment and carries that month's
exact payment total, and every calendar month with at least one payment
appears; months with zero payments never appear. -/
theorem claim_C6 (db : DB) :
    (monthly_revenue db).Pairwise (fun a b => a.1 < b.1)
    ∧ (∀ e ∈ monthly_revenue db,
        paymentsInMonth db e.1 ≠ [] ∧ e.2 = sumPayments (paymentsInMonth db e.1))
    ∧ (∀ m, 1 ≤ m → m ≤ 12 → paymentsInMonth db m ≠ [] →
        (m, sumPayments (paymentsInMonth db m)) ∈ monthly_revenue db) := by
  refine ⟨?_, ?_, ?_⟩
  · unfold monthly_revenue monthsWithPayments
    rw [List.pairwise_map]
    apply List.Pairwise.filter
    rw [List.pairwise_map]
    exact (List.pairwise_lt_range 12).imp (fun h => Nat.succ_lt_succ h)
  · intro e he
    unfold monthly_revenue at he
    rw [List.mem_map] at he
    obtain ⟨m, hm, rfl⟩ := he
    unfold monthsWithPayments at hm
    rw [List.mem_filter] at hm
    have hne := hm.2
    refine ⟨?_, rfl⟩
    intro hnil
    rw [hnil] at hne
    simp at hne
  · intro m h1 h12 hne
    unfold monthly_revenue
    rw [List.mem_map]
    refine ⟨m, ?_, rfl⟩
    unfold monthsWithPayments
    rw [List.mem_filter]
    constructor
    · rw [List.mem_map]
      exact ⟨m - 1, by rw [List.mem_range]; omega, by omega⟩
    · rw [Bool.not_eq_eq_eq_not, Bool.not_true, List.isEmpty_eq_false]
      exact hne

/-- Witness for C6 on the fixture store, whose single payment of 50000 cents
is dated in March. -/
theorem claim_C6_witness : ((3 : Nat), (50000 : Int)) ∈ monthly_revenue exDb :=
  (claim_C6 exDb).2.2 3 (by decide) (by decide) (by decide)

/-- The ids collected by `deadProjectIds` are exactly the ids of the
client's projects. -/
theorem mem_deadProjectIds (db : DB) (cid pid : Nat) :
    pid ∈ deadProjectIds db cid ↔
      ∃ p ∈ db.projects, p.id = pid ∧ p.clientId = cid := by
  unfold deadProjectIds
  simp only [List.mem_map, List.mem_filter, beq_iff_eq]
  constructor
  · rintro ⟨p, ⟨hmem, hcid⟩, hid⟩
    exact ⟨p, hmem, hid, hcid⟩
  · rintro ⟨p, hmem, hid, hcid⟩
    exact ⟨p, ⟨hmem, hcid⟩, hid⟩

/-- The ids collected by `deadInvoiceIds` are exactly the ids of invoices of
the client's projects. -/
theorem mem_deadInvoiceIds (db : DB) (cid iid : Nat) :
    iid ∈ deadInvoiceIds db cid ↔
      ∃ i ∈ db.invoices, i.id = iid ∧ i.projectId ∈ deadProjectIds db cid := by
  unfold deadInvoiceIds
  simp only [List.mem_map, List.mem_filter, List.elem_eq_mem, decide_eq_true_eq]
  constructor
  · rintro ⟨i, ⟨hmem, hpid⟩, hid⟩
    exact ⟨i, hmem, hid, hpid⟩
  · rintro ⟨i, hmem, hid, hpid⟩
    exact ⟨i, ⟨hmem, hpid⟩, hid⟩

/-- C8: deleting a Client deletes its Projects and, transitively, the
Tasks, Invoices, Notes and Attachments of those Projects and the Payments
of those Invoices, while every Expense of those Projects survives with its
project reference set to null. -/
theorem claim_C8 (db : DB) (cid : Nat) :
    (∀ c ∈ db.clients, c.id = cid → c ∉ (deleteClient db cid).clients)
    ∧ (∀ p ∈ db.projects, p.clientId = cid → p ∉ (deleteClient db cid).projects)
    ∧ (∀ t ∈ db.tasks, ∀ p ∈ db.projects,
        p.id = t.projectId → p.clientId = cid → t ∉ (deleteClient db cid).tasks)
    ∧ (∀ i ∈ db.invoices, ∀ p ∈ db.projects,
        p.id = i.projectId → p.clientId = cid → i ∉ (deleteClient db cid).invoices)
    ∧ (∀ n ∈ db.notes, ∀ p ∈ db.projects,
        p.id = n.projectId → p.clientId = cid → n ∉ (deleteClient db cid).notes)
    ∧ (∀ f ∈ db.files, ∀ p ∈ db.projects,
        p.id = f.projectId → p.clientId = cid → f ∉ (deleteClient db cid).files)
    ∧ (∀ pay ∈ db.payments, ∀ i ∈ db.invoices, ∀ p ∈ db.projects,
        i.id = pay.invoiceId → p.id = i.projectId → p.clientId = cid →
          pay ∉ (deleteClient db cid).payments)
    ∧ (∀ e ∈ db.expenses, ∀ pid, e.projectId = some pid → ∀ p ∈ db.projects,
        p.id = pid → p.clientId = cid →
          { e with projectId := none } ∈ (deleteClient db cid).expenses) := by
  refine ⟨?_, ?_, ?_, ?_, ?_, ?_, ?_, ?_⟩
  · intro c _ hcid hmem
    rw [deleteClient, List.mem_filter] at hmem
    simp [hcid] at hmem
  · intro p _ hcid hmem
    rw [deleteClient, List.mem_filter] at hmem
    simp [hcid] at hmem
  · intro t ht p hp hpid hcid hmem
    rw [deleteClient, List.mem_filter] at hmem
    have : t.projectId ∈ deadProjectIds db cid :=
      (mem_deadProjectIds db cid t.projectId).mpr ⟨p, hp, hpid, hcid⟩
    simp [List.elem_eq_mem, this] at hmem
  · intro i hi p hp hpid hcid hmem
    rw [deleteClient, List.mem_filter] at hmem
    have : i.projectId ∈ deadProjectIds db cid :=
      (mem_deadProjectIds db cid i.projectId).mpr ⟨p, hp, hpid, hcid⟩
    simp [List.elem_eq_mem, this] at hmem
  · intro n hn p hp hpid hcid hmem
    rw [deleteClient, List.mem_filter] at hmem
    have : n.projectId ∈ deadProjectIds db cid :=
      (mem_deadProjectIds db cid n.projectId).mpr ⟨p, hp, hpid, hcid⟩
    simp [List.elem_eq_mem, this] at hmem
  · intro f hf p hp hpid hcid hmem
    rw [deleteClient, List.mem_filter] at hmem
    have : f.projectId ∈ deadProjectIds db cid :=
      (mem_deadProjectIds db cid f.projectId).mpr ⟨p, hp, hpid, hcid⟩
    simp [List.elem_eq_mem, this] at hmem
  · intro pay hpay i hi p hp hiid hpid hcid hmem
    rw [deleteClient, List.mem_filter] at hmem
    have hdead : pay.invoiceId ∈ deadInvoiceIds db cid :=
      (mem_deadInvoiceIds db cid pay.invoiceId).mpr
        ⟨i, hi, hiid, (mem_deadProjectIds db cid i.projectId).mpr ⟨p, hp, hpid, hcid⟩⟩
    simp [List.elem_eq_mem, hdead] at hmem
  · intro e he pid hpid p hp hid hcid
    rw [deleteClient]
    rw [List.mem_map]
    refine ⟨e, he, ?_⟩
    rw [hpid]
    have hdead : pid ∈ deadProjectIds db cid :=
      (mem_deadProjectIds db cid pid).mpr ⟨p, hp, hid, hcid⟩
    simp [List.elem_eq_mem, hdead]

/-- Witness for C8 on the fixture store: deleting client 1 removes its
project, task, invoice, payment, note and file, and nulls the expense's
project reference. -/
theorem claim_C8_witness :
    exClient ∉ (deleteClient exDb 1).clients
      ∧ exProj1 ∉ (deleteClient exDb 1).projects
      ∧ exTaskNoDue ∉ (deleteClient exDb 1).tasks
      ∧ exInv1 ∉ (deleteClient exDb 1).invoices
      ∧ exNote ∉ (deleteClient exDb 1).notes
      ∧ exFile ∉ (deleteClient exDb 1).files
      ∧ exPayment ∉ (deleteClient exDb 1).payments
      ∧ { exExpense with projectId := none } ∈ (deleteClient exDb 1).expenses :=
  ⟨(claim_C8 exDb 1).1 exClient (by decide) rfl,
   (claim_C8 exDb 1).2.1 exProj1 (by decide) rfl,
   (claim_C8 exDb 1).2.2.1 exTaskNoDue (by decide) exProj1 (by decide) rfl rfl,
   (claim_C8 exDb 1).2.2.2.1 exInv1 (by decide) exProj1 (by decide) rfl rfl,
   (claim_C8 exDb 1).2.2.2.2.1 exNote (by decide) exProj1 (by decide) rfl rfl,
   (claim_C8 exDb 1).2.2.2.2.2.1 exFile (by decide) exProj1 (by decide) rfl rfl,
   (claim_C8 exDb 1).2.2.2.2.2.2.1 exPayment (by decide) exInv1 (by decide) exProj1
     (by decide) rfl rfl rfl,
   (claim_C8 exDb 1).2.2.2.2.2.2.2 exExpense (by decide) 10 rfl exProj1 (by decide)
     rfl rfl⟩

/-- C9: the export action never modifies the record store, and a rejected
selection produces no document. -/
theorem claim_C9 (db : DB) (qs : List Invoice) :
    (export_as_pdf db qs).1 = db
    ∧ (qs.length ≠ 1 → ∀ d, (export_as_pdf db qs).2 ≠ ExportResult.document d) := by
  constructor
  · rcases qs with _ | ⟨a, _ | ⟨b, l⟩⟩
    · rfl
    · rcases hp : findProject db a.projectId with _ | p
      · simp [export_as_pdf, hp]
      · rcases hc : findClient db p.clientId with _ | c <;>
          simp [export_as_pdf, hp, hc]
    · rfl
  · intro hne d hd
    rcases qs with _ | ⟨a, _ | ⟨b, l⟩⟩
    · simp [export_as_pdf] at hd
    · exact absurd rfl hne
    · simp [export_as_pdf] at hd

/-- Witness for C9: the store is returned unchanged, and the rejected empty
selection yields no document. -/
theorem claim_C9_witness :
    (export_as_pdf exDb []).1 = exDb
      ∧ (export_as_pdf exDb []).2 ≠
          ExportResult.document (renderInvoice exInv1 exProj1 exClient) :=
  ⟨(claim_C9 exDb []).1,
   (claim_C9 exDb []).2 (by decide) (renderInvoice exInv1 exProj1 exClient)⟩

end BlogApp
